import Mathlib

/-!
# 808emu: the register file and the opcode dispatch table of `class CPU`

A shallow embedding of `src/cpu.h`:

* the register file (lines 12-48): the accumulator, the three anonymous unions
  overlaying two `uint8` halves with one `uint16`, and `PC` / `SP`;
* the opcode member functions (lines 86-156) and, for those defined inline in
  the header, the generic routine they forward to together with the register
  whose address they pass;
* the member-function-pointer table `opcodeRegister` (lines 158-174);
* invoking a handler, with the function bodies the header does not contain
  either left as a parameter or, where a property needs them, described from
  the specification (`Tick`, `Reset`, `ReadPCByte`, `ReadPCWord`, `LXI`,
  `STAX`, `MOV`, `NOP`, and the memory interface).
-/

set_option maxRecDepth 100000

namespace CPU

/-! ## Register file (cpu.h lines 12-48) -/

/-- Byte order of the machine the emulator is compiled for.  The header overlays
`struct { uint8 X; uint8 Y; }` with `uint16 XY` in a union, so which half is the
high byte of the 16-bit view is decided by the host, not by the header. -/
inductive ByteOrder where
  | little
  | big
  deriving DecidableEq, Repr

/-- Storage of one anonymous union `union { struct { uint8 X; uint8 Y; }; uint16 XY; }`:
two bytes, `first` at offset 0 (the member declared first: `B`, `D`, `H`) and
`second` at offset 1 (`C`, `E`, `L`). -/
structure RegPair where
  first : Nat
  second : Nat
  deriving DecidableEq, Repr

/-- Value of the `uint16` member of the union: the two stored bytes read in host
byte order. -/
def RegPair.word (e : ByteOrder) (p : RegPair) : Nat :=
  match e with
  | .little => p.first % 256 + 256 * (p.second % 256)
  | .big => 256 * (p.first % 256) + p.second % 256

/-- Assignment to the `uint16` member of the union: the value is truncated to 16
bits and its two bytes are stored in host byte order. -/
def RegPair.setWord (e : ByteOrder) (v : Nat) : RegPair :=
  match e with
  | .little => ⟨v % 256, v / 256 % 256⟩
  | .big => ⟨v / 256 % 256, v % 256⟩

/-- Assignment to the first-declared `uint8` member (`B`, `D`, `H`). -/
def RegPair.setFirst (p : RegPair) (x : Nat) : RegPair :=
  { p with first := x % 256 }

/-- Assignment to the second-declared `uint8` member (`C`, `E`, `L`). -/
def RegPair.setSecond (p : RegPair) (x : Nat) : RegPair :=
  { p with second := x % 256 }

/-- The 16-bit value denoted by two bytes laid out at offsets 0 and 1, in host
byte order. -/
def combine (e : ByteOrder) (first second : Nat) : Nat :=
  match e with
  | .little => first + 256 * second
  | .big => 256 * first + second

/-- The `struct Flags` of cpu.h lines 51-57. -/
structure Flags where
  S : Bool
  Z : Bool
  A : Bool
  P : Bool
  C : Bool
  deriving DecidableEq, Repr

/-- The data members of `class CPU` (cpu.h lines 12-48 and 66). -/
structure State where
  A : Nat
  BC : RegPair
  DE : RegPair
  HL : RegPair
  PC : Nat
  SP : Nat
  flags : Flags
  deriving DecidableEq, Repr

/-- The `uint8` data members whose address a handler can pass (`&B`, `&C`, ...). -/
inductive Reg8 where
  | A | B | C | D | E | H | L
  deriving DecidableEq, Repr

/-- The `uint16` data members whose address a handler can pass (`&BC`, ..., `&SP`). -/
inductive Reg16 where
  | BC | DE | HL | SP
  deriving DecidableEq, Repr

/-- Read through a `uint8*` pointing at a data member. -/
def State.read8 (s : State) : Reg8 → Nat
  | .A => s.A % 256
  | .B => s.BC.first % 256
  | .C => s.BC.second % 256
  | .D => s.DE.first % 256
  | .E => s.DE.second % 256
  | .H => s.HL.first % 256
  | .L => s.HL.second % 256

/-- Write through a `uint8*` pointing at a data member. -/
def State.write8 (s : State) (r : Reg8) (x : Nat) : State :=
  match r with
  | .A => { s with A := x % 256 }
  | .B => { s with BC := s.BC.setFirst x }
  | .C => { s with BC := s.BC.setSecond x }
  | .D => { s with DE := s.DE.setFirst x }
  | .E => { s with DE := s.DE.setSecond x }
  | .H => { s with HL := s.HL.setFirst x }
  | .L => { s with HL := s.HL.setSecond x }

/-- Read through a `uint16*` pointing at a data member. -/
def State.read16 (e : ByteOrder) (s : State) : Reg16 → Nat
  | .BC => s.BC.word e
  | .DE => s.DE.word e
  | .HL => s.HL.word e
  | .SP => s.SP % 65536

/-- Write through a `uint16*` pointing at a data member. -/
def State.write16 (e : ByteOrder) (s : State) (r : Reg16) (v : Nat) : State :=
  match r with
  | .BC => { s with BC := RegPair.setWord e v }
  | .DE => { s with DE := RegPair.setWord e v }
  | .HL => { s with HL := RegPair.setWord e v }
  | .SP => { s with SP := v % 65536 }

/-- The three register pairs declared as unions (cpu.h lines 16-44). -/
inductive Pair where
  | BC | DE | HL
  deriving DecidableEq, Repr

/-- The `uint16` member of the union. -/
def Pair.word : Pair → Reg16
  | .BC => .BC
  | .DE => .DE
  | .HL => .HL

/-- The `uint8` member declared first in the union's struct (the first-named
half: `B`, `D`, `H`). -/
def Pair.firstHalf : Pair → Reg8
  | .BC => .B
  | .DE => .D
  | .HL => .H

/-- The `uint8` member declared second in the union's struct (the second-named
half: `C`, `E`, `L`). -/
def Pair.secondHalf : Pair → Reg8
  | .BC => .C
  | .DE => .E
  | .HL => .L

/-! ## Opcode member functions (cpu.h lines 86-156) -/

/-- The opcode member functions declared in `class CPU`, lines 86-156, under
their source names. -/
inductive Handler where
  | NOP | LXI_B | STAX_B | INX_B | INR_B | DCR_B | MVI_B | RLC
  | DAD_B | LDAX_B | DCX_B | INR_C | DCR_C | MVI_C | RRC
  | LXI_D | STAX_D | INX_D | INR_D | DCR_D | MVI_D | RAL
  | DAD_D | LDAX_D | DCX_D | INR_E | DCR_E | MVI_E | RAR
  | LXI_H | SHLD | INX_H | INR_H | DCR_H | MVI_H | DAA
  | DAD_H | LHLD | DCX_H | INR_L | DCR_L | MVI_L | CMA
  | LXI_SP | STA | INX_SP | INR_M | DCR_M | MVI_M | STC
  | DAD_SP | LDA | DCX_SP | INR_A | DCR_A | MVI_A | CMC
  | MOV_BB | MOV_BC | MOV_BD | MOV_BE | MOV_BH | MOV_BL
  deriving DecidableEq, Repr

/-- A call of one of the generic "multi register cpu functions" (lines 74-83)
with the data member whose address is passed. -/
inductive Call where
  | LXI (reg : Reg16)
  | STAX (reg : Reg16)
  | INX (reg : Reg16)
  | INR (reg : Reg8)
  | DCR (reg : Reg8)
  | MVI (reg : Reg8)
  | DAD (reg : Reg16)
  | LDAX (reg : Reg16)
  | DCX (reg : Reg16)
  | MOV (right left : Reg8)
  deriving DecidableEq, Repr

/-- The inline body of an opcode member function as written in the header: the
generic routine it forwards to and the register it hands over.  The member
functions that are only declared in the header (`NOP`, the rotates, `SHLD`,
`DAA`, `LHLD`, `CMA`, `STA`, `INR_M`, `DCR_M`, `STC`, `LDA`, `CMC`) have no
inline body. -/
def Handler.body : Handler → Option Call
  | .NOP => none
  | .LXI_B => some (.LXI .BC)
  | .STAX_B => some (.STAX .BC)
  | .INX_B => some (.INX .BC)
  | .INR_B => some (.INR .B)
  | .DCR_B => some (.DCR .B)
  | .MVI_B => some (.MVI .B)
  | .RLC => none
  | .DAD_B => some (.DAD .BC)
  | .LDAX_B => some (.LDAX .BC)
  | .DCX_B => some (.DCX .BC)
  | .INR_C => some (.INR .C)
  | .DCR_C => some (.DCR .C)
  | .MVI_C => some (.MVI .C)
  | .RRC => none
  | .LXI_D => some (.LXI .DE)
  | .STAX_D => some (.STAX .DE)
  | .INX_D => some (.INX .DE)
  | .INR_D => some (.INR .D)
  | .DCR_D => some (.DCR .D)
  | .MVI_D => some (.MVI .D)
  | .RAL => none
  | .DAD_D => some (.DAD .DE)
  | .LDAX_D => some (.LDAX .DE)
  | .DCX_D => some (.DCX .DE)
  | .INR_E => some (.INR .E)
  | .DCR_E => some (.DCR .E)
  | .MVI_E => some (.MVI .E)
  | .RAR => none
  | .LXI_H => some (.LXI .HL)
  | .SHLD => none
  | .INX_H => some (.INX .HL)
  | .INR_H => some (.INR .H)
  | .DCR_H => some (.DCR .H)
  | .MVI_H => some (.MVI .H)
  | .DAA => none
  | .DAD_H => some (.DAD .HL)
  | .LHLD => none
  | .DCX_H => some (.DCX .HL)
  | .INR_L => some (.INR .L)
  | .DCR_L => some (.DCR .L)
  | .MVI_L => some (.MVI .L)
  | .CMA => none
  | .LXI_SP => some (.LXI .SP)
  | .STA => none
  | .INX_SP => some (.INX .SP)
  | .INR_M => none
  | .DCR_M => none
  | .MVI_M => some (.MVI .H)
  | .STC => none
  | .DAD_SP => some (.DAD .HL)
  | .LDA => none
  | .DCX_SP => some (.DCX .HL)
  | .INR_A => some (.INR .L)
  | .DCR_A => some (.DCR .L)
  | .MVI_A => some (.MVI .L)
  | .CMC => none
  | .MOV_BB => some (.MOV .B .B)
  | .MOV_BC => some (.MOV .B .C)
  | .MOV_BD => some (.MOV .B .D)
  | .MOV_BE => some (.MOV .B .E)
  | .MOV_BH => some (.MOV .B .H)
  | .MOV_BL => some (.MOV .B .L)

/-! ## The dispatch table (cpu.h lines 158-174) -/

/-- The `struct CPUOpcode`: one pointer to member function, `none` being the
null pointer. -/
structure CPUOpcode where
  handler : Option Handler
  deriving DecidableEq, Repr

/-- The declared number of elements of `opcodeRegister` (`[0xFF]`, line 163). -/
def opcodeRegisterSize : Nat := 0xFF

/-- The initialiser clauses written between the braces of `opcodeRegister`
(lines 165-173), in order: five rows of sixteen. -/
def opcodeInitializers : List Handler :=
  [ -- 0x00 .. 0x0F
    Handler.NOP, Handler.LXI_B, Handler.STAX_B, Handler.INX_B, Handler.INR_B, Handler.DCR_B, Handler.MVI_B, Handler.RLC,
    Handler.NOP, Handler.DAD_B, Handler.LDAX_B, Handler.DCX_B, Handler.INR_C, Handler.DCR_C, Handler.MVI_C, Handler.RRC,
    -- 0x10 .. 0x1F
    Handler.NOP, Handler.LXI_D, Handler.STAX_D, Handler.INX_D, Handler.INR_D, Handler.DCR_D, Handler.MVI_D, Handler.RAL,
    Handler.NOP, Handler.DAD_D, Handler.LDAX_D, Handler.DCX_D, Handler.INR_E, Handler.DCR_E, Handler.MVI_E, Handler.RAR,
    -- 0x20 .. 0x2F
    Handler.NOP, Handler.LXI_H, Handler.SHLD, Handler.INX_H, Handler.INX_H, Handler.DCR_H, Handler.MVI_H, Handler.DAA,
    Handler.NOP, Handler.DAD_H, Handler.LHLD, Handler.DCX_H, Handler.INR_L, Handler.DCR_L, Handler.MVI_L, Handler.CMA,
    -- 0x30 .. 0x3F
    Handler.NOP, Handler.LXI_SP, Handler.STA, Handler.INR_M, Handler.DCR_M, Handler.DCR_M, Handler.MVI_M, Handler.STC,
    Handler.NOP, Handler.DAD_SP, Handler.LDA, Handler.DCX_SP, Handler.INR_A, Handler.DCR_A, Handler.MVI_A, Handler.CMC,
    -- 0x40 .. 0x4F
    Handler.MOV_BB, Handler.MOV_BC, Handler.MOV_BD, Handler.MOV_BE, Handler.MOV_BH, Handler.MOV_BL, Handler.NOP, Handler.NOP,
    Handler.NOP, Handler.NOP, Handler.NOP, Handler.NOP, Handler.NOP, Handler.NOP, Handler.NOP, Handler.NOP ]

/-- The array `CPUOpcode opcodeRegister[0xFF] = { ... }`: aggregate
initialisation gives the listed handlers to the leading elements and
value-initialises every remaining element, i.e. a null member pointer. -/
def opcodeRegister : List CPUOpcode :=
  opcodeInitializers.map (fun h => CPUOpcode.mk (some h))
    ++ List.replicate (opcodeRegisterSize - opcodeInitializers.length) (CPUOpcode.mk none)

/-- The handler stored at index `k` of the table: `none` when `k` is outside the
array or when the element holds the null member pointer. -/
def boundHandler (k : Nat) : Option Handler :=
  (opcodeRegister[k]?).bind CPUOpcode.handler

/-- The generic routine call performed by the handler stored at index `k`, for
handlers whose body is written in the header. -/
def boundCall (k : Nat) : Option Call :=
  (boundHandler k).bind Handler.body

/-- The opcode values (of the 256 a byte can take) at which handler `h` is
stored in the table. -/
def slotsOf (h : Handler) : List Nat :=
  (List.range 256).filter (fun k => decide (boundHandler k = some h))

/-- The opcode values at which the table stores a handler performing call `c`. -/
def slotsCalling (c : Call) : List Nat :=
  (List.range 256).filter (fun k => decide (boundCall k = some c))

/-- The opcode values (of the 256 a byte can take) whose table element exists
and holds a non-null handler. -/
def boundSlots : List Nat :=
  (List.range 256).filter (fun k => (boundHandler k).isSome)

/-- The `uint16` data member a generic routine call receives, if it takes one. -/
def Call.target16 : Call → Option Reg16
  | .LXI r => some r
  | .STAX r => some r
  | .INX r => some r
  | .DAD r => some r
  | .LDAX r => some r
  | .DCX r => some r
  | .INR _ => none
  | .DCR _ => none
  | .MVI _ => none
  | .MOV _ _ => none

/-- The `uint8` data members a generic routine call receives. -/
def Call.targets8 : Call → List Reg8
  | .INR r => [r]
  | .DCR r => [r]
  | .MVI r => [r]
  | .MOV right left => [right, left]
  | .LXI _ => []
  | .STAX _ => []
  | .INX _ => []
  | .DAD _ => []
  | .LDAX _ => []
  | .DCX _ => []

/-- The opcode values at which the table stores a handler that passes the
address of the `uint16` member `r` to its routine. -/
def slotsPassing16 (r : Reg16) : List Nat :=
  (List.range 256).filter (fun k => decide ((boundCall k).bind Call.target16 = some r))

/-- The opcode values at which the table stores a handler that passes the
address of the `uint8` member `r` to its routine. -/
def slotsPassing8 (r : Reg8) : List Nat :=
  (List.range 256).filter (fun k =>
    match boundCall k with
    | some c => decide (r ∈ c.targets8)
    | none => false)

/-! ## Running a handler -/

/-- Modelled from the spec: the class `Memory` of `memory.h`, which is not among
the sources.  The spec (sections 3 and 6) gives a flat 64KB byte space with
`read_byte(address: 16-bit) -> 8-bit` and `write_byte(address, value)`. -/
structure Memory where
  cells : Nat → Nat

/-- Modelled from the spec: `read_byte` of the memory interface. -/
def Memory.read (m : Memory) (addr : Nat) : Nat :=
  m.cells (addr % 65536) % 256

/-- Modelled from the spec: `write_byte` of the memory interface. -/
def Memory.write (m : Memory) (addr v : Nat) : Memory :=
  ⟨fun a => if a = addr % 65536 then v % 256 else m.cells a⟩

/-- What a member function of `CPU` called with a `Memory*` can read and change:
the data members of the object and the memory behind the pointer. -/
structure Machine where
  cpu : State
  mem : Memory

/-- The function bodies that are not in the header (they would be in the
implementation file): the generic routines of lines 74-83, by call, and the
opcode member functions that the header only declares. -/
structure Bodies where
  call : Call → Machine → Machine
  declared : Handler → Machine → Machine

/-- Invoking an opcode member function: one with an inline body in the header
performs the call written there (`void LXI_B(Memory* mem) { LXI(mem, &BC); }`),
one that is only declared runs its out-of-line body. -/
def Handler.run (β : Bodies) (h : Handler) (m : Machine) : Machine :=
  match h.body with
  | some c => β.call c m
  | none => β.declared h m

/-- Invoking the handler stored at index `k` of the table; `none` when there is
no element at `k` or the element holds the null pointer. -/
def runSlot (β : Bodies) (k : Nat) (m : Machine) : Option Machine :=
  (boundHandler k).map (fun h => h.run β m)

/-- Modelled from the spec: `ReadPCByte`, declared on line 68, body not in the
sources.  Spec 4.2: reads through the memory interface at the current program
counter, advances the program counter by 1 and returns the value. -/
def ReadPCByte (m : Machine) : Nat × Machine :=
  (m.mem.read m.cpu.PC, { m with cpu := { m.cpu with PC := (m.cpu.PC + 1) % 65536 } })

/-- Modelled from the spec: `ReadPCWord`, declared on line 69, body not in the
sources.  Spec 4.2: reads a word at the current program counter, little-endian
(low byte at the lower address), and advances the program counter by 2. -/
def ReadPCWord (m : Machine) : Nat × Machine :=
  (m.mem.read m.cpu.PC + 256 * m.mem.read (m.cpu.PC + 1),
    { m with cpu := { m.cpu with PC := (m.cpu.PC + 2) % 65536 } })

/-- Modelled from the spec: the generic routine `LXI(Memory*, uint16* reg)`,
declared on line 74, body not in the sources.  Spec 4.3: pair ← next word from
program counter; no flags. -/
def LXI (e : ByteOrder) (reg : Reg16) (m : Machine) : Machine :=
  let r := ReadPCWord m
  { r.2 with cpu := r.2.cpu.write16 e reg r.1 }

/-- Modelled from the spec: the generic routine `STAX(Memory*, uint16* reg)`,
declared on line 75, body not in the sources.  Spec 4.3: memory[pair] ←
accumulator; no flags. -/
def STAX (e : ByteOrder) (reg : Reg16) (m : Machine) : Machine :=
  { m with mem := m.mem.write (m.cpu.read16 e reg) (m.cpu.read8 .A) }

/-- Modelled from the spec: the generic routine `MOV(uint8* right, uint8* left)`,
declared on line 83, body not in the sources.  Spec 4.3 lists its inputs as
"source, destination" and its effect as destination ← source value, no flags;
with the header's parameter names that is: the first parameter `right` is the
source (the right-hand side of the assignment) and the second parameter `left`
the destination (its left-hand side). -/
def MOV (right left : Reg8) (m : Machine) : Machine :=
  { m with cpu := m.cpu.write8 left (m.cpu.read8 right) }

/-- Modelled from the spec: the opcode function `NOP`, declared on line 86, body
not in the sources.  Spec 4.3: no state change. -/
def NOP (m : Machine) : Machine := m

/-- Modelled from the spec: `Reset`, declared on line 61, body not in the
sources.  Spec 6: zeroes all registers and flags and sets the program counter
to the restart address `0x0000`. -/
def Reset (_s : State) : State :=
  { A := 0, BC := ⟨0, 0⟩, DE := ⟨0, 0⟩, HL := ⟨0, 0⟩, PC := 0, SP := 0,
    flags := ⟨false, false, false, false, false⟩ }

/-- The bodies the spec was consulted for (`LXI`, `STAX`, `MOV`, `NOP`), on a
host of byte order `e`; every other body is left as given by `other`. -/
def specBodies (e : ByteOrder) (other : Bodies) : Bodies where
  call := fun c =>
    match c with
    | .LXI reg => LXI e reg
    | .STAX reg => STAX e reg
    | .MOV right left => MOV right left
    | c => other.call c
  declared := fun h =>
    match h with
    | .NOP => NOP
    | h => other.declared h

/-- Modelled from the spec: `Tick`, declared on line 62, body not in the
sources.  Spec 4.2: read the byte at the program counter, increment the program
counter by one, use the byte as an index into the table and invoke the handler
found there.  The result is `none` when the table has no element at that index
or the element holds the null pointer. -/
def Tick (β : Bodies) (m : Machine) : Option Machine :=
  let r := ReadPCByte m
  runSlot β r.1 r.2

/-- A memory holding the four bytes `01 34 12 02` at addresses 0..3 and the
contents of `m0` everywhere else. -/
def scenarioMemory (m0 : Memory) : Memory :=
  (((m0.write 0 0x01).write 1 0x34).write 2 0x12).write 3 0x02

/-! ## The dispatch table: size and totality -/

/-- Number of initialiser clauses: five rows of sixteen. -/
theorem opcodeInitializers_length : opcodeInitializers.length = 80 := by
  decide

/-- The array has exactly the declared `0xFF` elements. -/
theorem opcodeRegister_length : opcodeRegister.length = 0xFF := by
  decide

/-- C1 (the table is indexable at every opcode byte, 0xFF included): evaluated
on the header, the array is declared with `0xFF` = 255 elements, so its valid
indices are 0..254; the opcode bytes that index inside the array are exactly
0..254, and the opcode byte `0xFF` (255) has no element. -/
theorem C1_table_has_no_entry_at_0xFF :
    opcodeRegister.length = 255
      ∧ opcodeRegister[0xFF]? = none
      ∧ (List.range 256).filter (fun k => decide (k < opcodeRegister.length))
          = List.range 255
      ∧ ¬ (0xFF < opcodeRegister.length) := by
  decide

/-- C2 (every opcode resolves to a non-null handler, unassigned ones to `NOP`):
evaluated on the header, the element at index `0x50` exists and holds the null
member pointer; the opcode values holding a non-null handler are exactly
`0x00..0x4F`; and `NOP` is stored only at indices below `0x50`, so no opcode in
`0x50..0xFF` resolves to the `NOP` handler. -/
theorem C2_slots_from_0x50_hold_null :
    opcodeRegister[0x50]? = some (CPUOpcode.mk none)
      ∧ boundHandler 0x50 = none
      ∧ boundHandler 0xFE = none
      ∧ boundHandler 0xFF = none
      ∧ boundSlots = List.range 0x50
      ∧ slotsOf Handler.NOP
          = [0x00, 0x08, 0x10, 0x18, 0x20, 0x28, 0x30, 0x38,
             0x46, 0x47, 0x48, 0x49, 0x4A, 0x4B, 0x4C, 0x4D, 0x4E, 0x4F] := by
  decide

/-! ## The register pairs -/

/-- On a big-endian host the first-named half is the high byte of the pair. -/
theorem split_big (s : State) (P : Pair) (v : Nat) :
    (s.write16 .big P.word v).read8 P.firstHalf = v / 256 % 256
      ∧ (s.write16 .big P.word v).read8 P.secondHalf = v % 256 := by
  cases P <;> simp [State.write16, State.read8, Pair.word, Pair.firstHalf,
    Pair.secondHalf, RegPair.setWord]

/-- On a little-endian host the first-named half is the low byte of the pair. -/
theorem split_little (s : State) (P : Pair) (v : Nat) :
    (s.write16 .little P.word v).read8 P.firstHalf = v % 256
      ∧ (s.write16 .little P.word v).read8 P.secondHalf = v / 256 % 256 := by
  cases P <;> simp [State.write16, State.read8, Pair.word, Pair.firstHalf,
    Pair.secondHalf, RegPair.setWord]

/-- The 16-bit view after the two halves have been written, in either byte
order. -/
theorem word_of_halves (e : ByteOrder) (s : State) (P : Pair) (h l : Nat) :
    ((s.write8 P.firstHalf h).write8 P.secondHalf l).read16 e P.word
      = combine e (h % 256) (l % 256) := by
  cases P <;> cases e <;> simp [State.write8, State.read16, Pair.word, Pair.firstHalf,
    Pair.secondHalf, RegPair.word, RegPair.setFirst, RegPair.setSecond, combine]

/-- C3 (after writing `v` to a pair the first-named half reads `v / 256` and the
second-named half `v mod 256`; after writing `h`, `l` to the halves the pair
reads `h*256 + l`): evaluated on the unions of the header for a little-endian
host, where the first-declared `uint8` member lies at the lower address.  There,
for every pair and every value, the first-named half reads the LOW byte
`v mod 256` and the second-named half the high byte, and the pair reads
`h + 256*l`; e.g. `BC = 0x1234` gives `B = 0x34`, `C = 0x12`, and `B = 0x12`,
`C = 0x34` gives `BC = 0x3412`. -/
theorem C3_first_half_is_low_byte_on_little_endian :
    (∀ (s : State) (P : Pair) (v : Nat),
        (s.write16 .little P.word v).read8 P.firstHalf = v % 256
          ∧ (s.write16 .little P.word v).read8 P.secondHalf = v / 256 % 256)
      ∧ (∀ (s : State) (P : Pair) (h l : Nat),
          ((s.write8 P.firstHalf h).write8 P.secondHalf l).read16 .little P.word
            = h % 256 + 256 * (l % 256))
      ∧ (∀ s : State, (s.write16 .little .BC 0x1234).read8 .B = 0x34
          ∧ (s.write16 .little .BC 0x1234).read8 .C = 0x12
          ∧ (s.write16 .little .BC 0x1234).read8 .B ≠ 0x1234 / 256
          ∧ ((s.write8 .B 0x12).write8 .C 0x34).read16 .little .BC = 0x3412
          ∧ ((s.write8 .B 0x12).write8 .C 0x34).read16 .little .BC ≠ 0x12 * 256 + 0x34) := by
  refine ⟨fun s P v => split_little s P v, fun s P h l => ?_, fun s => ?_⟩
  · simpa [combine] using word_of_halves .little s P h l
  · simp [State.write16, State.write8, State.read8, State.read16, RegPair.setWord,
      RegPair.word, RegPair.setFirst, RegPair.setSecond]

/-- C4 (pairing invariant): on either byte order and for each of the pairs BC,
DE, HL, the 16-bit view and the two 8-bit views denote the same 16 bits.
Writing a 16-bit value and recombining the two halves (each at the byte
position it occupies) gives that value back, truncated to 16 bits; the 16-bit
view always equals the recombination of the halves; writing one half sets that
half, leaves the other half as it was and changes only the corresponding byte
of the 16-bit view; and a write to a pair or to one of its halves leaves every
other pair, the accumulator, PC and SP as they were. -/
theorem C4_pairing_invariant (e : ByteOrder) (s : State) (P : Pair) (v x : Nat) :
    -- write the pair, read the halves, recombine
    combine e ((s.write16 e P.word v).read8 P.firstHalf)
        ((s.write16 e P.word v).read8 P.secondHalf) = v % 65536
      ∧ (s.write16 e P.word v).read16 e P.word = v % 65536
      -- the two views always show the same bits
      ∧ s.read16 e P.word = combine e (s.read8 P.firstHalf) (s.read8 P.secondHalf)
      -- writing the first-named half
      ∧ (s.write8 P.firstHalf x).read8 P.firstHalf = x % 256
      ∧ (s.write8 P.firstHalf x).read8 P.secondHalf = s.read8 P.secondHalf
      ∧ (s.write8 P.firstHalf x).read16 e P.word
          = combine e (x % 256) (s.read8 P.secondHalf)
      -- writing the second-named half
      ∧ (s.write8 P.secondHalf x).read8 P.secondHalf = x % 256
      ∧ (s.write8 P.secondHalf x).read8 P.firstHalf = s.read8 P.firstHalf
      ∧ (s.write8 P.secondHalf x).read16 e P.word
          = combine e (s.read8 P.firstHalf) (x % 256)
      -- frame: other pairs
      ∧ (∀ Q : Pair, Q = P ∨
          ((s.write16 e P.word v).read16 e Q.word = s.read16 e Q.word
            ∧ (s.write8 P.firstHalf x).read16 e Q.word = s.read16 e Q.word
            ∧ (s.write8 P.secondHalf x).read16 e Q.word = s.read16 e Q.word
            ∧ (s.write16 e P.word v).read8 Q.firstHalf = s.read8 Q.firstHalf
            ∧ (s.write16 e P.word v).read8 Q.secondHalf = s.read8 Q.secondHalf))
      -- frame: A, PC, SP
      ∧ ((s.write16 e P.word v).A = s.A ∧ (s.write16 e P.word v).PC = s.PC
          ∧ (s.write16 e P.word v).SP = s.SP)
      ∧ ((s.write8 P.firstHalf x).A = s.A ∧ (s.write8 P.firstHalf x).PC = s.PC
          ∧ (s.write8 P.firstHalf x).SP = s.SP)
      ∧ ((s.write8 P.secondHalf x).A = s.A ∧ (s.write8 P.secondHalf x).PC = s.PC
          ∧ (s.write8 P.secondHalf x).SP = s.SP) := by
  refine ⟨?_, ?_, ?_, ?_, ?_, ?_, ?_, ?_, ?_, ?_, ?_, ?_, ?_⟩
  · cases P <;> cases e <;>
      simp [State.write16, State.read8, Pair.word, Pair.firstHalf, Pair.secondHalf,
        RegPair.setWord, combine] <;> omega
  · cases P <;> cases e <;>
      simp [State.write16, State.read16, Pair.word, RegPair.setWord, RegPair.word] <;> omega
  · cases P <;> cases e <;>
      simp [State.read16, State.read8, Pair.word, Pair.firstHalf, Pair.secondHalf,
        RegPair.word, combine]
  · cases P <;> simp [State.write8, State.read8, Pair.firstHalf, RegPair.setFirst]
  · cases P <;> simp [State.write8, State.read8, Pair.firstHalf, Pair.secondHalf,
      RegPair.setFirst]
  · cases P <;> cases e <;>
      simp [State.write8, State.read8, State.read16, Pair.word, Pair.firstHalf,
        Pair.secondHalf, RegPair.setFirst, RegPair.word, combine]
  · cases P <;> simp [State.write8, State.read8, Pair.secondHalf, RegPair.setSecond]
  · cases P <;> simp [State.write8, State.read8, Pair.firstHalf, Pair.secondHalf,
      RegPair.setSecond]
  · cases P <;> cases e <;>
      simp [State.write8, State.read8, State.read16, Pair.word, Pair.firstHalf,
        Pair.secondHalf, RegPair.setSecond, RegPair.word, combine]
  · intro Q
    cases P <;> cases Q <;>
      simp [State.write16, State.write8, State.read8, State.read16, Pair.word,
        Pair.firstHalf, Pair.secondHalf]
  · cases P <;> simp [State.write16, Pair.word]
  · cases P <;> simp [State.write8, Pair.firstHalf]
  · cases P <;> simp [State.write8, Pair.secondHalf]

/-! ## The dispatch table: which routine and which register each slot gets -/

/-- C5 (every INR / DCR opcode is bound to the increment / decrement routine on
the target its mnemonic names): evaluated on the header.  The slots of B, C, D,
E, L for INR and of B, C, D, E, H, L and memory-at-HL for DCR are bound as
claimed.  Four slots are not: `0x24` (INR H) holds `INX_H`, which calls
`INX(&HL)`; `0x34` (INR M) holds `DCR_M`; `0x3C` (INR A) holds `INR_A`, whose
body calls `INR(&L)`; `0x3D` (DCR A) holds `DCR_A`, whose body calls
`DCR(&L)`.  No slot increments H or A or decrements A, `INR_H` is stored
nowhere, and `INR_M` sits at `0x33`. -/
theorem C5_inr_dcr_slots :
    -- INR slots bound as claimed
    (boundCall 0x04 = some (Call.INR .B) ∧ boundCall 0x0C = some (Call.INR .C)
      ∧ boundCall 0x14 = some (Call.INR .D) ∧ boundCall 0x1C = some (Call.INR .E)
      ∧ boundCall 0x2C = some (Call.INR .L))
    -- INR slots bound otherwise
    ∧ (boundHandler 0x24 = some Handler.INX_H ∧ boundCall 0x24 = some (Call.INX .HL)
      ∧ boundHandler 0x34 = some Handler.DCR_M
      ∧ boundHandler 0x3C = some Handler.INR_A ∧ boundCall 0x3C = some (Call.INR .L))
    -- DCR slots bound as claimed
    ∧ (boundCall 0x05 = some (Call.DCR .B) ∧ boundCall 0x0D = some (Call.DCR .C)
      ∧ boundCall 0x15 = some (Call.DCR .D) ∧ boundCall 0x1D = some (Call.DCR .E)
      ∧ boundCall 0x25 = some (Call.DCR .H) ∧ boundCall 0x2D = some (Call.DCR .L)
      ∧ boundHandler 0x35 = some Handler.DCR_M)
    -- DCR slot bound otherwise
    ∧ (boundHandler 0x3D = some Handler.DCR_A ∧ boundCall 0x3D = some (Call.DCR .L))
    -- what is reachable
    ∧ (slotsCalling (Call.INR .H) = [] ∧ slotsCalling (Call.INR .A) = []
      ∧ slotsCalling (Call.DCR .A) = [] ∧ slotsOf Handler.INR_H = []
      ∧ slotsOf Handler.INR_M = [0x33] ∧ slotsOf Handler.DCR_M = [0x34, 0x35]) := by
  decide

/-- C6 (every MVI opcode is bound to the move-immediate routine on the target
its mnemonic names): evaluated on the header.  The slots of B, C, D, E, H, L
are bound as claimed.  `0x36` (MVI M) holds `MVI_M`, whose body calls
`MVI(&H)`, and `0x3E` (MVI A) holds `MVI_A`, whose body calls `MVI(&L)`: these
two opcodes write register H and register L, and no slot moves an immediate
into the accumulator. -/
theorem C6_mvi_slots :
    (boundCall 0x06 = some (Call.MVI .B) ∧ boundCall 0x0E = some (Call.MVI .C)
      ∧ boundCall 0x16 = some (Call.MVI .D) ∧ boundCall 0x1E = some (Call.MVI .E)
      ∧ boundCall 0x26 = some (Call.MVI .H) ∧ boundCall 0x2E = some (Call.MVI .L))
    ∧ (boundHandler 0x36 = some Handler.MVI_M ∧ boundCall 0x36 = some (Call.MVI .H)
      ∧ boundHandler 0x3E = some Handler.MVI_A ∧ boundCall 0x3E = some (Call.MVI .L))
    ∧ (slotsCalling (Call.MVI .A) = [] ∧ slotsCalling (Call.MVI .H) = [0x26, 0x36]
      ∧ slotsCalling (Call.MVI .L) = [0x2E, 0x3E]) := by
  decide

/-- C7 (opcode `0x03 + 16*r` is INX and `0x0B + 16*r` is DCX on BC, DE, HL,
SP): evaluated on the header.  The rows of BC, DE and HL are bound as claimed.
`0x33` (INX SP) holds `INR_M`, not `INX_SP`, and `0x3B` (DCX SP) holds
`DCX_SP`, whose body calls `DCX(&HL)`: no slot increments or decrements SP,
`INX_SP` is stored nowhere, and `0x3B` decrements HL. -/
theorem C7_inx_dcx_slots :
    (boundCall 0x03 = some (Call.INX .BC) ∧ boundCall 0x13 = some (Call.INX .DE)
      ∧ boundCall 0x23 = some (Call.INX .HL))
    ∧ (boundCall 0x0B = some (Call.DCX .BC) ∧ boundCall 0x1B = some (Call.DCX .DE)
      ∧ boundCall 0x2B = some (Call.DCX .HL))
    ∧ (boundHandler 0x33 = some Handler.INR_M
      ∧ boundHandler 0x3B = some Handler.DCX_SP ∧ boundCall 0x3B = some (Call.DCX .HL))
    ∧ (slotsCalling (Call.INX .SP) = [] ∧ slotsCalling (Call.DCX .SP) = []
      ∧ slotsOf Handler.INX_SP = [] ∧ slotsCalling (Call.DCX .HL) = [0x2B, 0x3B]) := by
  decide

/-- C8 (opcode `0x09 + 16*r` is DAD with source BC, DE, HL, SP): evaluated on
the header.  The rows of BC, DE and HL are bound as claimed.  `0x39` (DAD SP)
holds `DAD_SP`, whose body calls `DAD(&HL)`: it hands HL, not the stack
pointer, to the routine, exactly as `0x29` does, and no slot calls DAD with
SP. -/
theorem C8_dad_slots :
    (boundCall 0x09 = some (Call.DAD .BC) ∧ boundCall 0x19 = some (Call.DAD .DE)
      ∧ boundCall 0x29 = some (Call.DAD .HL))
    ∧ (boundHandler 0x39 = some Handler.DAD_SP ∧ boundCall 0x39 = some (Call.DAD .HL)
      ∧ boundCall 0x39 ≠ some (Call.DAD .SP))
    ∧ (slotsCalling (Call.DAD .SP) = [] ∧ slotsCalling (Call.DAD .HL) = [0x29, 0x39]) := by
  decide

/-- C9 (LXI / STAX / LDAX binding): opcodes `0x01`, `0x11`, `0x21`, `0x31` hold
`LXI_B`, `LXI_D`, `LXI_H`, `LXI_SP`, which call LXI with BC, DE, HL, SP;
opcodes `0x02`, `0x12` hold `STAX_B`, `STAX_D`, which call STAX with BC, DE;
opcodes `0x0A`, `0x1A` hold `LDAX_B`, `LDAX_D`, which call LDAX with BC, DE. -/
theorem C9_lxi_stax_ldax_slots :
    (boundHandler 0x01 = some Handler.LXI_B ∧ boundCall 0x01 = some (Call.LXI .BC)
      ∧ boundHandler 0x11 = some Handler.LXI_D ∧ boundCall 0x11 = some (Call.LXI .DE)
      ∧ boundHandler 0x21 = some Handler.LXI_H ∧ boundCall 0x21 = some (Call.LXI .HL)
      ∧ boundHandler 0x31 = some Handler.LXI_SP ∧ boundCall 0x31 = some (Call.LXI .SP))
    ∧ (boundHandler 0x02 = some Handler.STAX_B ∧ boundCall 0x02 = some (Call.STAX .BC)
      ∧ boundHandler 0x12 = some Handler.STAX_D ∧ boundCall 0x12 = some (Call.STAX .DE))
    ∧ (boundHandler 0x0A = some Handler.LDAX_B ∧ boundCall 0x0A = some (Call.LDAX .BC)
      ∧ boundHandler 0x1A = some Handler.LDAX_D ∧ boundCall 0x1A = some (Call.LDAX .DE)) := by
  decide

/-- C10 as stated fails: `NOP`, bound at `0x00`, is also bound at `0x08`, so it
is not true that none of the listed handlers is bound at another index. -/
theorem C10_nop_is_bound_at_other_indices :
    boundHandler 0x00 = some Handler.NOP ∧ boundHandler 0x08 = some Handler.NOP
      ∧ ¬ (∀ k : Fin 256, boundHandler k.val = some Handler.NOP → k.val = 0x00) := by
  refine ⟨by decide, by decide, fun h => ?_⟩
  exact absurd (h ⟨0x08, by decide⟩ (by decide)) (by decide)

/-- C10, amended (fixed-opcode binding): each of RLC, RRC, RAL, RAR, SHLD, DAA,
LHLD, CMA, STA, STC, LDA, CMC is bound at its official opcode and at no other
of the 256 opcode values; `NOP` is bound at `0x00` and, besides, at `0x08`,
`0x10`, `0x18`, `0x20`, `0x28`, `0x30`, `0x38` and `0x46..0x4F`. -/
theorem C10_fixed_opcode_slots :
    slotsOf Handler.RLC = [0x07] ∧ slotsOf Handler.RRC = [0x0F]
      ∧ slotsOf Handler.RAL = [0x17] ∧ slotsOf Handler.RAR = [0x1F]
      ∧ slotsOf Handler.SHLD = [0x22] ∧ slotsOf Handler.DAA = [0x27]
      ∧ slotsOf Handler.LHLD = [0x2A] ∧ slotsOf Handler.CMA = [0x2F]
      ∧ slotsOf Handler.STA = [0x32] ∧ slotsOf Handler.STC = [0x37]
      ∧ slotsOf Handler.LDA = [0x3A] ∧ slotsOf Handler.CMC = [0x3F]
      ∧ slotsOf Handler.NOP
          = [0x00, 0x08, 0x10, 0x18, 0x20, 0x28, 0x30, 0x38,
             0x46, 0x47, 0x48, 0x49, 0x4A, 0x4B, 0x4C, 0x4D, 0x4E, 0x4F] := by
  decide

/-! ## The dispatch table: reserved slots, the MOV block, coverage -/

/-- C11 (reserved slots): each of the opcode slots `0x08`, `0x10`, `0x18`,
`0x20`, `0x28`, `0x30`, `0x38` holds `NOP`, the handler stored at `0x00`. -/
theorem C11_reserved_slots_hold_nop :
    boundHandler 0x00 = some Handler.NOP
      ∧ boundHandler 0x08 = boundHandler 0x00 ∧ boundHandler 0x10 = boundHandler 0x00
      ∧ boundHandler 0x18 = boundHandler 0x00 ∧ boundHandler 0x20 = boundHandler 0x00
      ∧ boundHandler 0x28 = boundHandler 0x00 ∧ boundHandler 0x30 = boundHandler 0x00
      ∧ boundHandler 0x38 = boundHandler 0x00 := by
  decide

/-- C12 (no MOV with memory on both sides; HALT is not a MOV): of the 64 slots
`0x40..0x7F`, only `0x40..0x45` hold a MOV wrapper, and each of those passes
the addresses of two register members (`B` and one of `B`, `C`, `D`, `E`, `H`,
`L`), never a memory cell; `0x46..0x4F` hold `NOP`; `0x50..0x7F` hold the null
pointer.  In particular the HALT encoding `0x76` has an element holding no
handler at all, so it is bound to no MOV instance. -/
theorem C12_mov_block_has_no_memory_to_memory :
    (List.range 64).map (fun i => boundHandler (0x40 + i))
        = [some Handler.MOV_BB, some Handler.MOV_BC, some Handler.MOV_BD,
           some Handler.MOV_BE, some Handler.MOV_BH, some Handler.MOV_BL]
          ++ List.replicate 10 (some Handler.NOP) ++ List.replicate 48 none
      ∧ (List.range 64).map (fun i => boundCall (0x40 + i))
        = [some (Call.MOV .B .B), some (Call.MOV .B .C), some (Call.MOV .B .D),
           some (Call.MOV .B .E), some (Call.MOV .B .H), some (Call.MOV .B .L)]
          ++ List.replicate 58 none
      ∧ opcodeRegister[0x76]? = some (CPUOpcode.mk none)
      ∧ boundHandler 0x76 = none
      ∧ boundCall 0x76 = none := by
  decide

/-- C16 (which elements are non-null): the initialiser lists exactly 80
handlers; the first 80 elements of the array (`0x00..0x4F`) hold a non-null
handler and each of the remaining 175 elements (`0x50..0xFE`) holds the null
pointer; so among the indices that have an element, the non-null ones are
exactly those below `0x50`. -/
theorem C16_bound_iff_below_0x50 :
    opcodeInitializers.length = 80
      ∧ opcodeRegister.map (fun c => c.handler.isSome)
          = List.replicate 0x50 true ++ List.replicate (0xFF - 0x50) false
      ∧ opcodeRegister.drop 0x50 = List.replicate 175 (CPUOpcode.mk none)
      ∧ (List.range opcodeRegister.length).filter (fun k => (boundHandler k).isSome)
          = List.range 0x50 := by
  decide

/-- C17 (reachability of the declared handlers): a declared opcode handler is
stored at no index of the table exactly when it is `INR_H` or `INX_SP`; and no
slot calls `INR` on `H` or `INX` on `SP`. -/
theorem C17_only_INR_H_and_INX_SP_unbound :
    (∀ h : Handler, slotsOf h = [] ↔ (h = Handler.INR_H ∨ h = Handler.INX_SP))
      ∧ slotsCalling (Call.INR .H) = []
      ∧ slotsCalling (Call.INX .SP) = [] := by
  refine ⟨fun h => ?_, by decide, by decide⟩
  cases h <;> decide

/-- C18 (who gets SP, who gets A): the only slot whose handler passes `&SP` to
its routine is `0x31`, which holds `LXI_SP`; and no slot holds a handler that
passes `&A` to INR, DCR, MVI or MOV. -/
theorem C18_sp_only_at_0x31_and_A_nowhere :
    slotsPassing16 .SP = [0x31]
      ∧ boundHandler 0x31 = some Handler.LXI_SP
      ∧ boundCall 0x31 = some (Call.LXI .SP)
      ∧ slotsPassing8 .A = [] := by
  decide

/-! ## Executing opcodes -/

/-- The handler stored at index `0x01`. -/
theorem boundHandler_0x01 : boundHandler 0x01 = some Handler.LXI_B := by
  decide

/-- The handler stored at index `0x02`. -/
theorem boundHandler_0x02 : boundHandler 0x02 = some Handler.STAX_B := by
  decide

/-- The opcode fetch of the first tick of the scenario. -/
theorem scenario_fetch_first (s0 : State) (m0 : Memory) :
    ReadPCByte ⟨Reset s0, scenarioMemory m0⟩
      = (0x01, ⟨{ Reset s0 with PC := 1 }, scenarioMemory m0⟩) := by
  simp [ReadPCByte, Reset, scenarioMemory, Memory.read, Memory.write]

/-- The operand fetch of `LXI` in the first tick of the scenario. -/
theorem scenario_operand (s0 : State) (m0 : Memory) :
    ReadPCWord ⟨{ Reset s0 with PC := 1 }, scenarioMemory m0⟩
      = (0x1234, ⟨{ Reset s0 with PC := 3 }, scenarioMemory m0⟩) := by
  simp [ReadPCWord, Reset, scenarioMemory, Memory.read, Memory.write]

/-- The opcode fetch of the second tick of the scenario. -/
theorem scenario_fetch_second (e : ByteOrder) (s0 : State) (m0 : Memory) :
    ReadPCByte ⟨({ Reset s0 with PC := 3 } : State).write16 e .BC 0x1234, scenarioMemory m0⟩
      = (0x02, ⟨{ ({ Reset s0 with PC := 3 } : State).write16 e .BC 0x1234 with PC := 4 },
          scenarioMemory m0⟩) := by
  simp [ReadPCByte, Reset, scenarioMemory, Memory.read, Memory.write, State.write16]

/-- The first tick of the scenario runs `LXI` on BC. -/
theorem scenario_first_tick (e : ByteOrder) (other : Bodies) (s0 : State) (m0 : Memory) :
    Tick (specBodies e other) ⟨Reset s0, scenarioMemory m0⟩
      = some ⟨({ Reset s0 with PC := 3 } : State).write16 e .BC 0x1234,
          scenarioMemory m0⟩ := by
  unfold Tick
  rw [scenario_fetch_first]
  simp only [runSlot, boundHandler_0x01, Option.map_some']
  show some (LXI e .BC _) = _
  unfold LXI
  rw [scenario_operand]

/-- The second tick of the scenario runs `STAX` on BC. -/
theorem scenario_second_tick (e : ByteOrder) (other : Bodies) (s0 : State) (m0 : Memory) :
    Tick (specBodies e other)
        ⟨({ Reset s0 with PC := 3 } : State).write16 e .BC 0x1234, scenarioMemory m0⟩
      = some (STAX e .BC
          ⟨{ ({ Reset s0 with PC := 3 } : State).write16 e .BC 0x1234 with PC := 4 },
            scenarioMemory m0⟩) := by
  unfold Tick
  rw [scenario_fetch_second]
  simp only [runSlot, boundHandler_0x02, Option.map_some']
  rfl

/-- C13 (MOV B,r binding: `0x40 + i` performs `B <- r_i`, B being handed over
as the destination, i.e. `left`, operand): evaluated on the header, each
wrapper `MOV_B<r>` calls `MOV(&B, &r)`, so B is the FIRST argument, which the
signature `MOV(uint8* right, uint8* left)` names `right`, and `r_i` is the
second, `left`.  With the routine as the spec describes it (destination, the
left-hand operand, receives the source, the right-hand operand) the slot
`0x40 + i` therefore performs `r_i <- B` and leaves B as it was: e.g. with
`B = 0x11`, `C = 0x22`, opcode `0x41` ends with `B = 0x11`, `C = 0x11`, where
8080 `MOV B,C` gives `B = 0x22`, `C = 0x22`. -/
theorem C13_mov_wrappers_pass_B_as_right :
    (boundCall 0x40 = some (Call.MOV .B .B) ∧ boundCall 0x41 = some (Call.MOV .B .C)
      ∧ boundCall 0x42 = some (Call.MOV .B .D) ∧ boundCall 0x43 = some (Call.MOV .B .E)
      ∧ boundCall 0x44 = some (Call.MOV .B .H) ∧ boundCall 0x45 = some (Call.MOV .B .L))
    ∧ (∀ (e : ByteOrder) (other : Bodies) (m : Machine),
        runSlot (specBodies e other) 0x40 m = some ⟨m.cpu.write8 .B (m.cpu.read8 .B), m.mem⟩
        ∧ runSlot (specBodies e other) 0x41 m = some ⟨m.cpu.write8 .C (m.cpu.read8 .B), m.mem⟩
        ∧ runSlot (specBodies e other) 0x42 m = some ⟨m.cpu.write8 .D (m.cpu.read8 .B), m.mem⟩
        ∧ runSlot (specBodies e other) 0x43 m = some ⟨m.cpu.write8 .E (m.cpu.read8 .B), m.mem⟩
        ∧ runSlot (specBodies e other) 0x44 m = some ⟨m.cpu.write8 .H (m.cpu.read8 .B), m.mem⟩
        ∧ runSlot (specBodies e other) 0x45 m = some ⟨m.cpu.write8 .L (m.cpu.read8 .B), m.mem⟩)
    ∧ (∀ (e : ByteOrder) (other : Bodies) (s0 : State) (mem : Memory),
        (runSlot (specBodies e other) 0x41
            ⟨((Reset s0).write8 .B 0x11).write8 .C 0x22, mem⟩).map
          (fun m => (m.cpu.read8 .B, m.cpu.read8 .C)) = some (0x11, 0x11)) := by
  refine ⟨by decide, fun e other m => ⟨rfl, rfl, rfl, rfl, rfl, rfl⟩, fun e other s0 mem => ?_⟩
  rfl

/-- C14 (end-to-end scenario): from the reset state, with the bytes `01 34 12
02` at addresses 0..3 and anything elsewhere in memory, opcode `0x01` is bound
to LXI on BC and opcode `0x02` to STAX on BC, and two successive ticks
complete and leave `BC = 0x1234`, `memory[0x1234] = 0` and `PC = 0x0004`, on
either host byte order and whatever the bodies not involved are. -/
theorem C14_lxi_stax_scenario (e : ByteOrder) (other : Bodies) (s0 : State)
    (m0 : Memory) :
    boundCall 0x01 = some (Call.LXI .BC) ∧ boundCall 0x02 = some (Call.STAX .BC)
      ∧ ((Tick (specBodies e other) ⟨Reset s0, scenarioMemory m0⟩).bind
            (Tick (specBodies e other))).map
          (fun m => (m.cpu.read16 e .BC, m.mem.read 0x1234, m.cpu.PC))
          = some (0x1234, 0, 0x0004) := by
  refine ⟨by decide, by decide, ?_⟩
  rw [scenario_first_tick, Option.some_bind, scenario_second_tick]
  cases e <;>
    simp [STAX, Reset, State.write16, State.read16, State.read8, RegPair.setWord,
      RegPair.word, Memory.read, Memory.write]

/-- C15 (aliased opcode slots): whatever the out-of-line bodies are and from
every machine state, the two opcodes of each listed pair invoke the identical
operation and so give the identical result: `0x34`/`0x35` both run `DCR_M`,
`0x36`/`0x26` both call MVI on H, `0x24`/`0x23` both call INX on HL,
`0x39`/`0x29` both call DAD with HL, `0x3B`/`0x2B` both call DCX on HL,
`0x3C`/`0x2C` both call INR on L, `0x3D`/`0x2D` both call DCR on L and
`0x3E`/`0x2E` both call MVI on L. -/
theorem C15_aliased_slots (β : Bodies) (m : Machine) :
    (runSlot β 0x34 m = some (β.declared Handler.DCR_M m)
      ∧ runSlot β 0x35 m = some (β.declared Handler.DCR_M m))
    ∧ (runSlot β 0x36 m = some (β.call (Call.MVI .H) m)
      ∧ runSlot β 0x26 m = some (β.call (Call.MVI .H) m))
    ∧ (runSlot β 0x24 m = some (β.call (Call.INX .HL) m)
      ∧ runSlot β 0x23 m = some (β.call (Call.INX .HL) m))
    ∧ (runSlot β 0x39 m = some (β.call (Call.DAD .HL) m)
      ∧ runSlot β 0x29 m = some (β.call (Call.DAD .HL) m))
    ∧ (runSlot β 0x3B m = some (β.call (Call.DCX .HL) m)
      ∧ runSlot β 0x2B m = some (β.call (Call.DCX .HL) m))
    ∧ (runSlot β 0x3C m = some (β.call (Call.INR .L) m)
      ∧ runSlot β 0x2C m = some (β.call (Call.INR .L) m))
    ∧ (runSlot β 0x3D m = some (β.call (Call.DCR .L) m)
      ∧ runSlot β 0x2D m = some (β.call (Call.DCR .L) m))
    ∧ (runSlot β 0x3E m = some (β.call (Call.MVI .L) m)
      ∧ runSlot β 0x2E m = some (β.call (Call.MVI .L) m)) := by
  refine ⟨⟨rfl, rfl⟩, ⟨rfl, rfl⟩, ⟨rfl, rfl⟩, ⟨rfl, rfl⟩, ⟨rfl, rfl⟩, ⟨rfl, rfl⟩,
    ⟨rfl, rfl⟩, ⟨rfl, rfl⟩⟩

end CPU
